import Mathlib

/-!
Verification development for the Touchpoint haptic-feedback NVDA addon.

This file gives a shallow embedding of the parts of the repository that the
checked properties are about: the hardware protocol driver
(addon/globalPlugins/touchpoint/hardware_driver.py), the effect, filter and
handler dispatch layer (effects.py, filters.py, handlers.py), and the
object-transition tracking loop of the plugin
(addon/globalPlugins/touchpoint/touchpoint.py).

Python floats are modelled as rationals, packets as structured records, and
side effects (packet sends, log lines, registry updates) as explicit traces
returned next to the updated state.  A raised Python exception is modelled as
an `Option PyError` outcome next to the trace of the side effects that had
already happened before the raise.
-/

namespace Touchpoint

/-- A Python exception, as far as the embedded code distinguishes them. -/
inductive PyError where
  | attributeError
  | other (code : Nat)
deriving DecidableEq, Repr

/-- Location rectangle of an NVDA object (left, top, right, bottom). -/
structure Rect where
  left : Int
  top : Int
  right : Int
  bottom : Int
deriving DecidableEq, Repr

/-- Width of a location rectangle, as exposed by the NVDA location object. -/
def Rect.width (r : Rect) : Int := r.right - r.left

/-- Height of a location rectangle, as exposed by the NVDA location object. -/
def Rect.height (r : Rect) : Int := r.bottom - r.top

/-- One field written into an outbound packet. -/
inductive PField where
  | f32 (v : ℚ)
  | i16 (v : Int)
  | u8 (v : Nat)
deriving DecidableEq, Repr

/-- An outbound packet: a one-byte header plus the written payload fields. -/
structure Packet where
  header : Nat
  payload : List PField
deriving DecidableEq, Repr

/-- The two transport channels of the driver. -/
inductive Channel where
  | uart
  | udp
deriving DecidableEq, Repr

/-- One transmitted packet: channel, packet, and the guaranteed-delivery flag
passed to the framing library send call. -/
structure Send where
  chan : Channel
  packet : Packet
  guaranteed : Bool
deriving DecidableEq, Repr

/-- Header constants from HardwareDriver. -/
def H_PING : Nat := 0xFF

/-- ELEVATION packet header. -/
def H_ELEVATION : Nat := 0x10

/-- ELEVATION_SPEED packet header. -/
def H_ELEVATION_SPEED : Nat := 0x11

/-- VIBRATION packet header. -/
def H_VIBRATION : Nat := 0x20

/-- STATUS packet header (emulator only). -/
def H_STATUS : Nat := 0x30

/-- The mutable state of a HardwareDriver instance, restricted to the fields
its command surface reads and writes.  The UART protocol object is stored by
the constructor under the attribute name `uart_core`; the class has no
attribute named `core`. -/
structure HardwareDriver where
  hardware_connected : Bool
  emulator_connected : Bool
  elevation : ℚ
  max_elevation_speed : ℚ
deriving DecidableEq, Repr

/-- HardwareDriver.send_elevation: record the new elevation, then transmit an
ELEVATION packet on the UART channel when `hardware_connected` and on the UDP
channel when `emulator_connected`. -/
def HardwareDriver.send_elevation (d : HardwareDriver) (elevation : ℚ) :
    HardwareDriver × List Send :=
  let d1 : HardwareDriver := { d with elevation := elevation }
  let uartSends : List Send :=
    if d1.hardware_connected then
      [⟨Channel.uart, ⟨H_ELEVATION, [PField.f32 elevation]⟩, false⟩]
    else []
  let udpSends : List Send :=
    if d1.emulator_connected then
      [⟨Channel.udp, ⟨H_ELEVATION, [PField.f32 elevation]⟩, false⟩]
    else []
  (d1, uartSends ++ udpSends)

/-- HardwareDriver.send_vibration: transmit a VIBRATION packet
(amplitude, frequency, duration) on each connected channel. -/
def HardwareDriver.send_vibration (d : HardwareDriver)
    (amplitude frequency : ℚ) (duration : Int) :
    HardwareDriver × List Send :=
  let pkt : Packet :=
    ⟨H_VIBRATION, [PField.f32 amplitude, PField.f32 frequency, PField.i16 duration]⟩
  let uartSends : List Send :=
    if d.hardware_connected then [⟨Channel.uart, pkt, false⟩] else []
  let udpSends : List Send :=
    if d.emulator_connected then [⟨Channel.udp, pkt, false⟩] else []
  (d, uartSends ++ udpSends)

/-- HardwareDriver.add_elevation_offset: when neither channel is connected,
return immediately; otherwise add the offset to the tracked elevation and
delegate to send_elevation. -/
def HardwareDriver.add_elevation_offset (d : HardwareDriver) (offset : ℚ) :
    HardwareDriver × List Send :=
  if !d.hardware_connected && !d.emulator_connected then (d, [])
  else d.send_elevation (d.elevation + offset)

/-- HardwareDriver.set_max_elevation_speed.  The source reads `self.core` in
the hardware branch, but HardwareDriver never assigns an attribute named
`core` (its UART protocol object is `self.uart_core`), so that attribute
access raises AttributeError and the method aborts before any send; the
emulator branch below it is then never reached.  With the hardware channel
not connected, the emulator branch transmits an ELEVATION_SPEED packet on
the UDP channel inside a try/except. -/
def HardwareDriver.set_max_elevation_speed (d : HardwareDriver) (speed : ℚ) :
    Except PyError (HardwareDriver × List Send) :=
  if d.hardware_connected then
    Except.error PyError.attributeError
  else if d.emulator_connected then
    Except.ok (d, [⟨Channel.udp, ⟨H_ELEVATION_SPEED, [PField.f32 speed]⟩, false⟩])
  else
    Except.ok (d, [])

/-- One call of `wait_for_header(H_PING, timeout_ms)` made by the handshake. -/
structure WaitAttempt where
  header : Nat
  timeout_ms : Nat
deriving DecidableEq, Repr

/-- The retry loop of HardwareDriver._wait_for_ping: while no response has
arrived and fewer than 10 attempts were made, call
`wait_for_header(H_PING, 1000)` again.  `transport n` tells whether the
n-th wait call sees an inbound PING before its timeout. -/
def wait_for_ping_loop (transport : Nat → Bool) (timeout_count : Nat) :
    Bool × List WaitAttempt :=
  if h : timeout_count < 10 then
    let attempt : WaitAttempt := ⟨H_PING, 1000⟩
    if transport timeout_count then (true, [attempt])
    else
      let r := wait_for_ping_loop transport (timeout_count + 1)
      (r.1, attempt :: r.2)
  else (false, [])
termination_by 10 - timeout_count

/-- HardwareDriver._wait_for_ping: run the retry loop from attempt 0; on
success send a PING acknowledgement and push the elevation-speed
configuration (a guaranteed send, via _send_elevation_speed_to_hardware);
on exhaustion report failure and send nothing. -/
def HardwareDriver.wait_for_ping (d : HardwareDriver) (transport : Nat → Bool) :
    Bool × List WaitAttempt × List Send :=
  let r := wait_for_ping_loop transport 0
  if r.1 then
    (true, r.2,
      [⟨Channel.uart, ⟨H_PING, []⟩, false⟩,
       ⟨Channel.uart, ⟨H_ELEVATION_SPEED, [PField.f32 d.max_elevation_speed]⟩, true⟩])
  else (false, r.2, [])

/-- The UART part of HardwareDriver.initialize: if opening the serial port
fails, hardware_connected is false; otherwise hardware_connected is the
outcome of the PING handshake. -/
def HardwareDriver.init_uart (d : HardwareDriver) (open_ok : Bool)
    (transport : Nat → Bool) : HardwareDriver × List Send :=
  if open_ok then
    let r := d.wait_for_ping transport
    ({ d with hardware_connected := r.1 }, r.2.2)
  else ({ d with hardware_connected := false }, [])

/-- A driver command issued later in the session. -/
inductive DrvCmd where
  | elev (v : ℚ)
  | vib (amplitude frequency : ℚ) (duration : Int)
  | offset (delta : ℚ)
deriving DecidableEq, Repr

/-- Run a sequence of send_elevation / send_vibration / add_elevation_offset
calls, concatenating everything transmitted. -/
def runCmds (d : HardwareDriver) : List DrvCmd → HardwareDriver × List Send
  | [] => (d, [])
  | c :: cs =>
    let r : HardwareDriver × List Send :=
      match c with
      | DrvCmd.elev v => d.send_elevation v
      | DrvCmd.vib a f t => d.send_vibration a f t
      | DrvCmd.offset δ => d.add_elevation_offset δ
    let rest := runCmds r.1 cs
    (rest.1, r.2 ++ rest.2)

/-- An NVDA accessibility object, restricted to the attributes the embedded
code reads.  Role values are abstract numeric codes; `ia2_video` abstracts
the IAccessible2 attribute probe that recognises a video tag. -/
structure NObj where
  windowHandle : Option Nat
  childId : Option Nat
  location : Option Rect
  role : Option Nat
  ia2_video : Bool
deriving DecidableEq, Repr

/-- Abstract role code for controlTypes.Role.GRAPHIC. -/
def ROLE_GRAPHIC : Nat := 16

/-- Abstract role code for controlTypes.Role.IMAGEMAP. -/
def ROLE_IMAGEMAP : Nat := 17

/-- The image_roles tuple of the plugin. -/
def image_roles : List Nat := [ROLE_GRAPHIC, ROLE_IMAGEMAP]

/-- GlobalPlugin._is_image_object: false for a missing object or missing
role; otherwise true when the role is GRAPHIC or IMAGEMAP, or when the
IAccessible2 attribute probe finds a video tag. -/
def is_image_object (obj : Option NObj) : Bool :=
  match obj with
  | none => false
  | some o =>
    match o.role with
    | none => false
    | some r => image_roles.contains r || o.ia2_video

/-- The derived identity tuple (windowHandle, IAccessibleChildID, location)
computed by GlobalPlugin._get_object_id. -/
def ObjId : Type := Option Nat × Option Nat × Option Rect
deriving DecidableEq, Repr

/-- GlobalPlugin._get_object_id: None for a missing object, otherwise the
(windowHandle, childId, location) tuple. -/
def get_object_id (obj : Option NObj) : Option ObjId :=
  obj.map (fun o => (o.windowHandle, o.childId, o.location))

/-- One observable side effect of the embedded code: a log line, a packet
transmission, a capture-region registry update, an effect invocation mark,
or a call into HardwareDriver.send_elevation. -/
inductive Act where
  | logMsg (msg : String)
  | logError (className eventName : String) (e : PyError)
  | send (s : Send)
  | addRegion (handlerId : Nat) (r : Rect)
  | removeRegion (handlerId : Nat)
  | mark (n : Nat)
  | callSendElevation (v : ℚ)
deriving DecidableEq, Repr

/-- The object-transition tracking state of the plugin
(GlobalPlugin fields touched by the mouse tracking thread). -/
structure TrackState where
  current_image_obj : Option NObj
  current_image_id : Option ObjId
  image_region : Option Rect
  capture_enabled : Bool
  depth_map_present : Bool
  core : Bool
deriving DecidableEq, Repr

/-- GlobalPlugin._handle_image_enter: bail out (with an error log) when the
object is missing or has no location; otherwise record the object, its
identity and its region, enable capture, and send a brief vibration pulse
when the UART protocol object is available. -/
def handle_image_enter (s : TrackState) (obj : Option NObj) :
    TrackState × List Act :=
  match obj with
  | none => (s, [Act.logMsg ("[ERROR] Invalid image object (None) on enter")])
  | some o =>
    match o.location with
    | none => (s, [Act.logMsg ("[ERROR] Invalid image object (None) on enter")])
    | some loc =>
      let s1 : TrackState :=
        { s with
          current_image_obj := some o
          current_image_id := get_object_id (some o)
          image_region := some loc
          capture_enabled := true }
      let pulse : List Act :=
        if s1.core then
          [Act.send ⟨Channel.uart,
            ⟨H_VIBRATION, [PField.f32 (8/100), PField.f32 150, PField.i16 3]⟩,
            false⟩]
        else []
      (s1, Act.logMsg ("Mouse entered image") :: pulse)

/-- GlobalPlugin._handle_image_leave: disable capture, clear the tracked
object, identity, region and depth map, and (when the UART protocol object
is available) send a brief vibration pulse followed by a zero elevation. -/
def handle_image_leave (s : TrackState) : TrackState × List Act :=
  let s1 : TrackState :=
    { s with
      current_image_obj := none
      current_image_id := none
      image_region := none
      capture_enabled := false
      depth_map_present := false }
  let pulse : List Act :=
    if s1.core then
      [Act.send ⟨Channel.uart,
        ⟨H_VIBRATION, [PField.f32 (5/100), PField.f32 100, PField.i16 2]⟩,
        false⟩,
       Act.send ⟨Channel.uart, ⟨H_ELEVATION, [PField.f32 0]⟩, false⟩]
    else []
  (s1, Act.logMsg ("Mouse left image - capture disabled") :: pulse)

/-- The object-transition portion of one iteration of
GlobalPlugin._mouse_tracking_thread: classify the object under the mouse,
compare its identity with the tracked one, and run the enter / leave /
leave-then-enter handling accordingly. -/
def mouse_tick (s : TrackState) (mouse_obj : Option NObj) :
    TrackState × List Act :=
  let is_image : Bool := is_image_object mouse_obj
  let was_on_image : Bool := s.current_image_obj.isSome
  let same_image : Bool :=
    if is_image && was_on_image then
      get_object_id mouse_obj == s.current_image_id
    else false
  if is_image && !was_on_image then
    handle_image_enter s mouse_obj
  else if !is_image && was_on_image then
    handle_image_leave s
  else if is_image && was_on_image && !same_image then
    let p := handle_image_leave s
    let q := handle_image_enter p.1 mouse_obj
    (q.1, p.2 ++ q.2)
  else (s, [])

/-- An effect body: from the subject object (or none for global events) it
produces the trace of side effects it performed, together with the raised
exception when it failed part-way.  Quantifying theorems over this type
covers every concrete Effect subclass. -/
def EffectFn : Type := Option NObj → List Act × Option PyError

/-- ComboEffect.__call__: run the sub-effects in list order; a raised
exception aborts the loop and propagates, keeping the side effects already
performed. -/
def ComboEffect.call (effects : List EffectFn) (obj : Option NObj) :
    List Act × Option PyError :=
  match effects with
  | [] => ([], none)
  | e :: rest =>
    match e obj with
    | (as, some err) => (as, some err)
    | (as, none) =>
      let r := ComboEffect.call rest obj
      (as ++ r.1, r.2)

/-- The concatenated traces of a list of effects, all run on the same
subject (the expected trace when none of them fails). -/
def allTraces (effects : List EffectFn) (obj : Option NObj) : List Act :=
  match effects with
  | [] => []
  | e :: rest => (e obj).1 ++ allTraces rest obj

/-- A handler as built by ObjectHandler.__init__ / GlobalHandler.__init__:
an identity (standing for the Python object identity, used to key capture
regions), the class name used in error logs, and the event-name-to-effect
map. -/
structure Handler where
  id : Nat
  className : String
  effects : List (String × EffectFn)

/-- The enter event name. -/
def evEnter : String := "enter"

/-- The leave event name. -/
def evLeave : String := "leave"

/-- ObjectHandler.handle_event: when the event name is mapped, call the
effect; a raised exception is caught and logged with the handler class and
event name, and never propagates. -/
def ObjectHandler.handle_event (h : Handler) (event_name : String)
    (obj : NObj) : List Act × Option PyError :=
  match h.effects.lookup event_name with
  | none => ([], none)
  | some eff =>
    match eff (some obj) with
    | (as, none) => (as, none)
    | (as, some e) => (as ++ [Act.logError h.className event_name e], none)

/-- GlobalHandler.trigger_event: same catch-and-log policy as
ObjectHandler.handle_event, with no subject object. -/
def GlobalHandler.trigger_event (h : Handler) (event_name : String) :
    List Act × Option PyError :=
  match h.effects.lookup event_name with
  | none => ([], none)
  | some eff =>
    match eff none with
    | (as, none) => (as, none)
    | (as, some e) => (as ++ [Act.logError h.className event_name e], none)

/-- The capture-region registry of the coordinator, keyed by owning handler
identity. -/
structure PluginState where
  capture_regions : List (Nat × Rect)
deriving DecidableEq, Repr

/-- Modelled from the spec: the coordinator method add_capture_region is not
part of src (handlers.py only calls it); per the spec a CaptureRegion is
keyed by owning handler identity and registering a new region for the same
handler replaces the old one. -/
def add_capture_region (ps : PluginState) (handlerId : Nat) (r : Rect) :
    PluginState :=
  ⟨(handlerId, r) :: ps.capture_regions.filter (fun p => p.1 ≠ handlerId)⟩

/-- Modelled from the spec: the coordinator method remove_capture_region is
not part of src (handlers.py only calls it); it deletes the region keyed by
the handler identity. -/
def remove_capture_region (ps : PluginState) (handlerId : Nat) :
    PluginState :=
  ⟨ps.capture_regions.filter (fun p => p.1 ≠ handlerId)⟩

/-- GraphicHandler.handle_event: on enter, bail out when the object has no
location, else register a capture region for the object location; on leave,
remove this handler region; then (in the non-bail-out cases) delegate to
the base ObjectHandler.handle_event dispatch.  Registry calls are recorded
in the trace before the base-dispatch trace, mirroring their execution
order. -/
def GraphicHandler.handle_event (h : Handler) (ps : PluginState)
    (event_name : String) (obj : NObj) :
    PluginState × (List Act × Option PyError) :=
  if event_name = evEnter then
    match obj.location with
    | none => (ps, ([], none))
    | some loc =>
      let ps1 := add_capture_region ps h.id loc
      let r := ObjectHandler.handle_event h event_name obj
      (ps1, (Act.addRegion h.id loc :: r.1, r.2))
  else if event_name = evLeave then
    let ps1 := remove_capture_region ps h.id
    let r := ObjectHandler.handle_event h event_name obj
    (ps1, (Act.removeRegion h.id :: r.1, r.2))
  else (ps, ObjectHandler.handle_event h event_name obj)

/-- A two-dimensional pixel / depth matrix, indexed row-major as in numpy
(shape = (rows, cols), entry row col). -/
structure Mat where
  rows : Nat
  cols : Nat
  entry : Nat → Nat → ℚ

/-- Elementwise division by 255 (the `map / 255.0` normalisation step). -/
def matNormalize (m : Mat) : Mat :=
  ⟨m.rows, m.cols, fun i j => m.entry i j / 255⟩

/-- Python int() conversion of a float: truncation toward zero. -/
def pyInt (q : ℚ) : Int :=
  if 0 ≤ q then ⌊q⌋ else ⌈q⌉

/-- GraphicHandler.ELEVATION_SCALE. -/
def ELEVATION_SCALE : ℚ := 1/2

/-- GraphicHandler.INVERT (1 = normal, -1 = inverted depth map). -/
def INVERT : Int := 1

/-- The attribute dictionary of a GraphicHandler instance as far as
capture_callback reads it.  `region` models the attribute `self.region`:
`none` means the attribute was never assigned (no code in the repository
assigns it; reading it then raises AttributeError). -/
structure GraphicHandlerSelf where
  region : Option Rect

/-- GraphicHandler.capture_callback: convert the captured image to
grayscale, blur it, normalise to [0,1] (INVERT = 1, so no inversion), then
compute the pointer-relative sample coordinate.  That computation divides by
`self.region.width` and `self.region.height`; when the `region` attribute
was never assigned, the attribute access raises AttributeError there,
before any depth value is sampled or sent.  Otherwise the coordinate is
clamped to the buffer bounds, the depth is sampled and
(depth - 0.5) * 2 * ELEVATION_SCALE is passed to
plugin.hardware.send_elevation.  The external cv2 collaborators are
parameters; the pointer position comes from plugin.get_mouse_position. -/
def capture_callback (cvtColorGray gaussianBlur : Mat → Mat)
    (gh : GraphicHandlerSelf) (mouse_pos : Int × Int) (region : Rect)
    (image : Mat) : List Act × Option PyError :=
  let m0 := cvtColorGray image
  let m1 := gaussianBlur m0
  let m2 := matNormalize m1
  match gh.region with
  | none => ([], some PyError.attributeError)
  | some sr =>
    let rel_x : Int :=
      pyInt ((((mouse_pos.1 - region.left) * (m2.cols : Int) : Int) : ℚ) /
        ((sr.width : Int) : ℚ))
    let rel_y : Int :=
      pyInt ((((mouse_pos.2 - region.top) * (m2.rows : Int) : Int) : ℚ) /
        ((sr.height : Int) : ℚ))
    let cx : Int := max 0 (min ((m2.cols : Int) - 1) rel_x)
    let cy : Int := max 0 (min ((m2.rows : Int) - 1) rel_y)
    let depth_value : ℚ := m2.entry cy.toNat cx.toNat
    let elevation : ℚ := (depth_value - 1/2) * 2 * ELEVATION_SCALE
    ([Act.callSendElevation elevation], none)

/-- The body of an object filter.  The Python signature is
matches(self, plugin, obj); the combinator below passes the plugin argument
through unchanged, so it is absorbed into the closure here. -/
def FilterFn : Type := NObj → Bool

/-- ComboObjectFilter.matches: return false at the first include filter that
does not match, then false at the first exclude filter that matches, else
true.  The first-failing-filter loops of the source are expressed with
find?. -/
def ComboObjectFilter.matches (inc exc : List FilterFn) (obj : NObj) : Bool :=
  match inc.find? (fun f => !(f obj)) with
  | some _ => false
  | none =>
    match exc.find? (fun f => f obj) with
    | some _ => false
    | none => true

end Touchpoint

namespace Touchpoint

/-! ## Helper lemmas -/

/-- send_elevation does not change the hardware flag. -/
theorem send_elevation_hw (d : HardwareDriver) (v : ℚ) :
    (d.send_elevation v).1.hardware_connected = d.hardware_connected := rfl

/-- send_vibration does not change the hardware flag. -/
theorem send_vibration_hw (d : HardwareDriver) (a f : ℚ) (t : Int) :
    (d.send_vibration a f t).1.hardware_connected = d.hardware_connected := rfl

/-- add_elevation_offset does not change the hardware flag. -/
theorem add_elevation_offset_hw (d : HardwareDriver) (δ : ℚ) :
    (d.add_elevation_offset δ).1.hardware_connected = d.hardware_connected := by
  unfold HardwareDriver.add_elevation_offset
  split
  · rfl
  · rfl

/-- With the hardware channel disconnected, send_elevation transmits only on
the UDP channel. -/
theorem send_elevation_no_uart (d : HardwareDriver) (v : ℚ)
    (hd : d.hardware_connected = false) :
    ∀ s ∈ (d.send_elevation v).2, s.chan ≠ Channel.uart := by
  intro s hs
  unfold HardwareDriver.send_elevation at hs
  simp only [hd] at hs
  simp only [Bool.false_eq_true, if_false, List.nil_append] at hs
  rcases h : d.emulator_connected with _ | _ <;> simp [h] at hs
  rw [hs]
  simp

/-- With the hardware channel disconnected, send_vibration transmits only on
the UDP channel. -/
theorem send_vibration_no_uart (d : HardwareDriver) (a f : ℚ) (t : Int)
    (hd : d.hardware_connected = false) :
    ∀ s ∈ (d.send_vibration a f t).2, s.chan ≠ Channel.uart := by
  intro s hs
  unfold HardwareDriver.send_vibration at hs
  simp only [hd] at hs
  simp only [Bool.false_eq_true, if_false, List.nil_append] at hs
  rcases h : d.emulator_connected with _ | _ <;> simp [h] at hs
  rw [hs]
  simp

/-- With the hardware channel disconnected, add_elevation_offset transmits
only on the UDP channel. -/
theorem add_elevation_offset_no_uart (d : HardwareDriver) (δ : ℚ)
    (hd : d.hardware_connected = false) :
    ∀ s ∈ (d.add_elevation_offset δ).2, s.chan ≠ Channel.uart := by
  intro s hs
  unfold HardwareDriver.add_elevation_offset at hs
  rcases h : (!d.hardware_connected && !d.emulator_connected) with _ | _
  · rw [h] at hs
    simp only [Bool.false_eq_true, if_false] at hs
    exact send_elevation_no_uart d (d.elevation + δ) hd s hs
  · rw [h] at hs
    simp at hs

/-- Sessions that start with the hardware channel disconnected never
transmit on the UART channel. -/
theorem runCmds_no_uart (cmds : List DrvCmd) :
    ∀ d : HardwareDriver, d.hardware_connected = false →
      ∀ s ∈ (runCmds d cmds).2, s.chan ≠ Channel.uart := by
  induction cmds with
  | nil =>
    intro d _ s hs
    simp [runCmds] at hs
  | cons c cs ih =>
    intro d hd s hs
    unfold runCmds at hs
    rcases c with v | ⟨a, f, t⟩ | δ
    all_goals
      simp only [List.mem_append] at hs
    · rcases hs with hs | hs
      · exact send_elevation_no_uart d v hd s hs
      · exact ih (d.send_elevation v).1 ((send_elevation_hw d v).trans hd) s hs
    · rcases hs with hs | hs
      · exact send_vibration_no_uart d a f t hd s hs
      · exact ih (d.send_vibration a f t).1 ((send_vibration_hw d a f t).trans hd) s hs
    · rcases hs with hs | hs
      · exact add_elevation_offset_no_uart d δ hd s hs
      · exact ih (d.add_elevation_offset δ).1 ((add_elevation_offset_hw d δ).trans hd) s hs

/-- With a transport that never delivers a PING, the handshake loop makes
exactly the remaining attempts, each with header H_PING and a 1000 ms
timeout, and fails. -/
theorem wait_loop_never_responds (transport : Nat → Bool)
    (hT : ∀ n, transport n = false) :
    ∀ m k, 10 - k = m →
      wait_for_ping_loop transport k =
        (false, List.replicate m ⟨H_PING, 1000⟩) := by
  intro m
  induction m with
  | zero =>
    intro k hk
    have hge : ¬ k < 10 := by omega
    rw [wait_for_ping_loop]
    simp [hge]
  | succ n ihn =>
    intro k hk
    have hlt : k < 10 := by omega
    rw [wait_for_ping_loop]
    simp only [hlt, dif_pos, hT k, Bool.false_eq_true, if_false]
    rw [ihn (k + 1) (by omega)]
    simp [List.replicate_succ]

/-! ## Claim theorems -/

/-- C2: after send_elevation(0.37), add_elevation_offset(0.10) reads the
tracked elevation, adds the delta and delegates to send_elevation, so an
ELEVATION packet with value 0.47 is transmitted on each connected channel
and the tracked current elevation equals 0.47. -/
theorem send_then_offset_round_trip (d : HardwareDriver)
    (h : d.hardware_connected = true ∨ d.emulator_connected = true) :
    (d.send_elevation (37/100)).1.add_elevation_offset (10/100) =
      (d.send_elevation (37/100)).1.send_elevation
        ((d.send_elevation (37/100)).1.elevation + 10/100) ∧
    ((d.send_elevation (37/100)).1.add_elevation_offset (10/100)).1.elevation
      = 47/100 ∧
    ((d.send_elevation (37/100)).1.add_elevation_offset (10/100)).2 =
      (if d.hardware_connected then
        [⟨Channel.uart, ⟨H_ELEVATION, [PField.f32 (47/100)]⟩, false⟩] else [])
      ++
      (if d.emulator_connected then
        [⟨Channel.udp, ⟨H_ELEVATION, [PField.f32 (47/100)]⟩, false⟩] else []) := by
  obtain ⟨hw, emu, el, sp⟩ := d
  rcases hw with _ | _ <;> rcases emu with _ | _ <;>
    simp_all [HardwareDriver.send_elevation, HardwareDriver.add_elevation_offset] <;>
    norm_num

/-- C2 witness: with only the emulator channel connected, the round trip
transmits a single UDP ELEVATION packet with value 0.47 and tracks 0.47. -/
theorem send_then_offset_round_trip_witness :
    ((HardwareDriver.send_elevation ⟨false, true, 0, 2⟩ (37/100)).1.add_elevation_offset
        (10/100)).1.elevation = 47/100 ∧
    ((HardwareDriver.send_elevation ⟨false, true, 0, 2⟩ (37/100)).1.add_elevation_offset
        (10/100)).2 =
      [⟨Channel.udp, ⟨H_ELEVATION, [PField.f32 (47/100)]⟩, false⟩] := by
  have h := send_then_offset_round_trip ⟨false, true, 0, 2⟩ (Or.inr rfl)
  exact ⟨h.2.1, h.2.2.trans (by rfl)⟩

/-- C10: with neither channel connected, add_elevation_offset returns
immediately and leaves the tracked elevation unchanged, while
send_elevation still overwrites the tracked elevation (and transmits
nothing). -/
theorem disconnected_offset_vs_send_elevation (d : HardwareDriver) (δ v : ℚ)
    (hw : d.hardware_connected = false) (emu : d.emulator_connected = false) :
    d.add_elevation_offset δ = (d, []) ∧
    (d.send_elevation v).1.elevation = v ∧
    (d.send_elevation v).1 = { d with elevation := v } ∧
    (d.send_elevation v).2 = [] := by
  refine ⟨?_, rfl, rfl, ?_⟩
  · unfold HardwareDriver.add_elevation_offset
    simp [hw, emu]
  · unfold HardwareDriver.send_elevation
    simp [hw, emu]

/-- C10 witness: at a concrete disconnected driver, the offset call is a
no-op while send_elevation updates the tracked elevation. -/
theorem disconnected_offset_vs_send_elevation_witness :
    HardwareDriver.add_elevation_offset ⟨false, false, (37/100), 2⟩ (10/100) =
      (⟨false, false, (37/100), 2⟩, []) ∧
    (HardwareDriver.send_elevation ⟨false, false, (37/100), 2⟩ (47/100)).1.elevation
      = 47/100 := by
  have h := disconnected_offset_vs_send_elevation
    ⟨false, false, (37/100), 2⟩ (10/100) (47/100) rfl rfl
  exact ⟨h.1, h.2.1⟩

/-- C7: the claim says set_max_elevation_speed transmits an ELEVATION_SPEED
packet on each connected channel with guaranteed UART delivery and never
raises; but on every driver with the hardware channel connected, the source
reads self.core — an attribute HardwareDriver never assigns (the UART
protocol object is self.uart_core) — so the call raises AttributeError into
the caller and transmits nothing on the UART channel. -/
theorem set_max_elevation_speed_raises_when_hardware_connected :
    HardwareDriver.set_max_elevation_speed ⟨true, false, 0, 2⟩ (3/2) =
      Except.error PyError.attributeError ∧
    HardwareDriver.set_max_elevation_speed ⟨true, true, 0, 2⟩ (3/2) =
      Except.error PyError.attributeError ∧
    HardwareDriver.set_max_elevation_speed ⟨false, true, 0, 2⟩ (3/2) =
      Except.ok (⟨false, true, 0, 2⟩,
        [⟨Channel.udp, ⟨H_ELEVATION_SPEED, [PField.f32 (3/2)]⟩, false⟩]) := by
  refine ⟨rfl, rfl, rfl⟩

/-- C3: with a transport that never delivers a PING, the handshake makes
exactly 10 wait_for_header(H_PING, 1000) attempts and fails, initialization
leaves hardware_connected false and transmits nothing, and no later
send_elevation / send_vibration / add_elevation_offset call of the session
transmits anything on the UART channel. -/
theorem uart_handshake_timeout_fails_channel
    (transport : Nat → Bool) (hT : ∀ n, transport n = false)
    (d : HardwareDriver) (cmds : List DrvCmd) :
    wait_for_ping_loop transport 0 =
      (false, List.replicate 10 ⟨H_PING, 1000⟩) ∧
    (d.init_uart true transport).1.hardware_connected = false ∧
    (d.init_uart true transport).2 = [] ∧
    (∀ s ∈ (runCmds (d.init_uart true transport).1 cmds).2,
      s.chan ≠ Channel.uart) := by
  have hloop := wait_loop_never_responds transport hT 10 0 rfl
  have hinit : d.init_uart true transport =
      ({ d with hardware_connected := false }, []) := by
    unfold HardwareDriver.init_uart HardwareDriver.wait_for_ping
    rw [hloop]
    simp
  refine ⟨hloop, ?_, ?_, ?_⟩
  · rw [hinit]
  · rw [hinit]
  · rw [hinit]
    exact runCmds_no_uart cmds { d with hardware_connected := false } rfl

/-- C3 witness: a concrete silent transport exhausts all 10 attempts of
1000 ms each, the channel stays disconnected, and a concrete later command
sequence transmits nothing on the UART channel. -/
theorem uart_handshake_timeout_fails_channel_witness :
    wait_for_ping_loop (fun _ => false) 0 =
      (false, List.replicate 10 ⟨H_PING, 1000⟩) ∧
    ((HardwareDriver.init_uart ⟨false, true, 0, 2⟩ true (fun _ => false)).1.hardware_connected
      = false) ∧
    (∀ s ∈ (runCmds
        (HardwareDriver.init_uart ⟨false, true, 0, 2⟩ true (fun _ => false)).1
        [DrvCmd.elev 1, DrvCmd.vib 1 2 3, DrvCmd.offset (1/2)]).2,
      s.chan ≠ Channel.uart) := by
  have h := uart_handshake_timeout_fails_channel (fun _ => false)
    (fun _ => rfl) ⟨false, true, 0, 2⟩
    [DrvCmd.elev 1, DrvCmd.vib 1 2 3, DrvCmd.offset (1/2)]
  exact ⟨h.1, h.2.1, h.2.2.2⟩

/-- C1: when the object under the mouse is a matching image whose identity
differs from the tracked one, the tick runs the leave handling first and
the enter handling second (the tick equals their sequential composition,
with the leave trace strictly before the enter trace); when the identity is
unchanged, no enter or leave handling fires. -/
theorem mouse_tick_switch_leave_then_enter (s : TrackState)
    (mobj : Option NObj) :
    (is_image_object mobj = true → s.current_image_obj.isSome = true →
      get_object_id mobj ≠ s.current_image_id →
      mouse_tick s mobj =
        ((handle_image_enter (handle_image_leave s).1 mobj).1,
         (handle_image_leave s).2 ++
           (handle_image_enter (handle_image_leave s).1 mobj).2)) ∧
    (is_image_object mobj = true → s.current_image_obj.isSome = true →
      get_object_id mobj = s.current_image_id →
      mouse_tick s mobj = (s, [])) ∧
    (is_image_object mobj = false → s.current_image_obj = none →
      mouse_tick s mobj = (s, [])) := by
  refine ⟨?_, ?_, ?_⟩
  · intro hb hwas hid
    unfold mouse_tick
    simp [hb, hwas, hid]
  · intro hb hwas hid
    unfold mouse_tick
    simp [hb, hwas, hid]
  · intro hb hnone
    unfold mouse_tick
    simp [hb, hnone]

/-- The witness objects and tracking state for the transition theorems: the
mouse starts on image aW and moves to the distinct image bW. -/
def aW : NObj := ⟨some 1, some 1, some ⟨0, 0, 10, 10⟩, some ROLE_GRAPHIC, false⟩

/-- The second, distinct witness image object. -/
def bW : NObj := ⟨some 2, some 1, some ⟨20, 0, 40, 10⟩, some ROLE_GRAPHIC, false⟩

/-- Tracking state currently on aW. -/
def sW : TrackState :=
  ⟨some aW, get_object_id (some aW), some ⟨0, 0, 10, 10⟩, true, true, true⟩

/-- C1 witness: moving from image aW to the different image bW in one tick
produces the leave trace (pulse and zero elevation) strictly before the
enter trace, and staying on aW produces no handling at all. -/
theorem mouse_tick_switch_leave_then_enter_witness :
    mouse_tick sW (some bW) =
      (⟨some bW, get_object_id (some bW), some ⟨20, 0, 40, 10⟩, true, false, true⟩,
       [Act.logMsg ("Mouse left image - capture disabled"),
        Act.send ⟨Channel.uart,
          ⟨H_VIBRATION, [PField.f32 (5/100), PField.f32 100, PField.i16 2]⟩, false⟩,
        Act.send ⟨Channel.uart, ⟨H_ELEVATION, [PField.f32 0]⟩, false⟩,
        Act.logMsg ("Mouse entered image"),
        Act.send ⟨Channel.uart,
          ⟨H_VIBRATION, [PField.f32 (8/100), PField.f32 150, PField.i16 3]⟩, false⟩]) ∧
    mouse_tick sW (some aW) = (sW, []) ∧
    mouse_tick ⟨none, none, none, false, false, true⟩ none =
      (⟨none, none, none, false, false, true⟩, []) := by
  have h1 := (mouse_tick_switch_leave_then_enter sW (some bW)).1 rfl rfl (by decide)
  have h2 := (mouse_tick_switch_leave_then_enter sW (some aW)).2.1 rfl rfl rfl
  have h3 := (mouse_tick_switch_leave_then_enter
    ⟨none, none, none, false, false, true⟩ none).2.2 rfl rfl
  exact ⟨h1.trans (by rfl), h2, h3⟩

/-- C5: ComboEffect runs its sub-effects in list order; the first failing
sub-effect aborts the loop with its exception and the later sub-effects
contribute nothing (they are never invoked); when every sub-effect
succeeds, all traces appear concatenated in list order. -/
theorem comboEffect_order_and_first_failure (obj : Option NObj) :
    (∀ (es1 : List EffectFn) (e : EffectFn) (es2 : List EffectFn)
        (as : List Act) (err : PyError),
      (∀ f ∈ es1, (f obj).2 = none) → e obj = (as, some err) →
      ComboEffect.call (es1 ++ e :: es2) obj =
        (allTraces es1 obj ++ as, some err)) ∧
    (∀ es : List EffectFn, (∀ f ∈ es, (f obj).2 = none) →
      ComboEffect.call es obj = (allTraces es obj, none)) := by
  constructor
  · intro es1 e es2 as err
    induction es1 with
    | nil =>
      intro _ he
      simp [ComboEffect.call, allTraces, he]
    | cons f fs ih =>
      intro h1 he
      rcases hfo : f obj with ⟨fa, fe⟩
      have hfe : fe = none := by
        have hf := h1 f (List.mem_cons_self f fs)
        rw [hfo] at hf
        exact hf
      subst hfe
      have hfs : ∀ g ∈ fs, (g obj).2 = none :=
        fun g hg => h1 g (List.mem_cons_of_mem f hg)
      have ihr := ih hfs he
      simp only [List.cons_append, ComboEffect.call, hfo]
      simp only [List.append_eq]
      rw [ihr]
      simp [allTraces, hfo, List.append_assoc]
  · intro es
    induction es with
    | nil =>
      intro _
      simp [ComboEffect.call, allTraces]
    | cons f fs ih =>
      intro h1
      rcases hfo : f obj with ⟨fa, fe⟩
      have hfe : fe = none := by
        have hf := h1 f (List.mem_cons_self f fs)
        rw [hfo] at hf
        exact hf
      subst hfe
      have hfs : ∀ g ∈ fs, (g obj).2 = none :=
        fun g hg => h1 g (List.mem_cons_of_mem f hg)
      have ihr := ih hfs
      simp only [ComboEffect.call, hfo]
      rw [ihr]
      simp [allTraces, hfo]

/-- A sub-effect that performs one action and then raises. -/
def effFail : EffectFn := fun _ => ([Act.mark 1], some (PyError.other 7))

/-- A sub-effect that performs one action and succeeds. -/
def effOkOne : EffectFn := fun _ => ([Act.mark 1], none)

/-- A second succeeding sub-effect. -/
def effOkTwo : EffectFn := fun _ => ([Act.mark 2], none)

/-- C5 witness: with [fails, ok] the second sub-effect never runs and the
exception propagates; with [ok, ok] both run in order. -/
theorem comboEffect_order_and_first_failure_witness :
    ComboEffect.call [effFail, effOkTwo] none =
      ([Act.mark 1], some (PyError.other 7)) ∧
    ComboEffect.call [effOkOne, effOkTwo] none =
      ([Act.mark 1, Act.mark 2], none) := by
  have h1 := (comboEffect_order_and_first_failure none).1 [] effFail [effOkTwo]
    [Act.mark 1] (PyError.other 7) (by simp) rfl
  have h2 := (comboEffect_order_and_first_failure none).2 [effOkOne, effOkTwo]
    (by
      intro f hf
      simp only [List.mem_cons, List.not_mem_nil, or_false] at hf
      rcases hf with h | h <;> subst h <;> rfl)
  refine ⟨h1.trans (by rfl), h2.trans (by rfl)⟩

/-- Characterisation of ComboObjectFilter.matches, shared by the claim
theorem below. -/
theorem comboMatches_characterisation (inc exc : List FilterFn) (obj : NObj) :
    ComboObjectFilter.matches inc exc obj = true ↔
      (∀ f ∈ inc, f obj = true) ∧ (∀ f ∈ exc, f obj = false) := by
  unfold ComboObjectFilter.matches
  rcases h1 : inc.find? (fun f => !(f obj)) with _ | f1
  · rcases h2 : exc.find? (fun f => f obj) with _ | f2
    · simp only [h1, h2]
      constructor
      · intro _
        constructor
        · intro f hf
          have hnone := List.find?_eq_none.mp h1 f hf
          simpa using hnone
        · intro f hf
          have hnone := List.find?_eq_none.mp h2 f hf
          simpa using hnone
      · intro _
        trivial
    · simp only [h1, h2]
      constructor
      · intro hfalse
        cases hfalse
      · rintro ⟨_, hexc⟩
        have hmem := List.mem_of_find?_eq_some h2
        have hp := List.find?_some h2
        have hne := hexc f2 hmem
        rw [hne] at hp
        cases hp
  · simp only [h1]
    constructor
    · intro hfalse
      cases hfalse
    · rintro ⟨hinc, _⟩
      have hmem := List.mem_of_find?_eq_some h1
      have hp := List.find?_some h1
      have hyes := hinc f1 hmem
      simp only [hyes] at hp
      cases hp

/-- C6: ComboObjectFilter.matches is true iff every include filter matches
and no exclude filter matches; an empty include list behaves as match-all
and an empty exclude list imposes no veto. -/
theorem comboObjectFilter_matches_iff (inc exc : List FilterFn) (obj : NObj) :
    (ComboObjectFilter.matches inc exc obj = true ↔
      (∀ f ∈ inc, f obj = true) ∧ (∀ f ∈ exc, f obj = false)) ∧
    (ComboObjectFilter.matches [] exc obj = true ↔
      ∀ f ∈ exc, f obj = false) ∧
    (ComboObjectFilter.matches inc [] obj = true ↔
      ∀ f ∈ inc, f obj = true) := by
  refine ⟨comboMatches_characterisation inc exc obj, ?_, ?_⟩
  · rw [comboMatches_characterisation]
    simp
  · rw [comboMatches_characterisation]
    simp

/-- A plain concrete object used by the dispatch witnesses. -/
def objPlain : NObj := ⟨some 9, some 0, some ⟨1, 1, 2, 2⟩, some 3, false⟩

/-- A filter that matches every object. -/
def filterYes : FilterFn := fun _ => true

/-- A filter that rejects every object. -/
def filterNo : FilterFn := fun _ => false

/-- C6 witness: at a concrete include/exclude pair the combinator evaluates
to true exactly as the characterisation prescribes. -/
theorem comboObjectFilter_matches_iff_witness :
    ComboObjectFilter.matches [filterYes] [filterNo] objPlain = true ∧
    ComboObjectFilter.matches [] [filterYes] objPlain = false := by
  constructor
  · exact (comboObjectFilter_matches_iff [filterYes] [filterNo]
      objPlain).1.mpr
      ⟨by intro f hf; simp only [List.mem_singleton] at hf; subst hf; rfl,
       by intro f hf; simp only [List.mem_singleton] at hf; subst hf; rfl⟩
  · rfl

/-- C9: the event dispatch of ObjectHandler.handle_event and
GlobalHandler.trigger_event never propagates an exception; a failing effect
is caught, its already-performed actions are kept, and the error is logged
with the handler class name and the event name. -/
theorem handle_event_never_propagates (h : Handler) (event_name : String)
    (obj : NObj) :
    (ObjectHandler.handle_event h event_name obj).2 = none ∧
    (GlobalHandler.trigger_event h event_name).2 = none ∧
    (∀ eff as e, h.effects.lookup event_name = some eff →
      eff (some obj) = (as, some e) →
      (ObjectHandler.handle_event h event_name obj).1 =
        as ++ [Act.logError h.className event_name e]) ∧
    (∀ eff as e, h.effects.lookup event_name = some eff →
      eff none = (as, some e) →
      (GlobalHandler.trigger_event h event_name).1 =
        as ++ [Act.logError h.className event_name e]) := by
  refine ⟨?_, ?_, ?_, ?_⟩
  · unfold ObjectHandler.handle_event
    rcases hl : h.effects.lookup event_name with _ | eff
    · simp [hl]
    · rcases he : eff (some obj) with ⟨as, _ | e⟩ <;> simp [hl, he]
  · unfold GlobalHandler.trigger_event
    rcases hl : h.effects.lookup event_name with _ | eff
    · simp [hl]
    · rcases he : eff none with ⟨as, _ | e⟩ <;> simp [hl, he]
  · intro eff as e hl he
    unfold ObjectHandler.handle_event
    simp [hl, he]
  · intro eff as e hl he
    unfold GlobalHandler.trigger_event
    simp [hl, he]

/-- The failing-effect handler used as a witness. -/
def hFail : Handler := ⟨3, "ObjectHandler", [(evEnter, effFail)]⟩

/-- C9 witness: a concrete failing effect is caught and logged; nothing
propagates. -/
theorem handle_event_never_propagates_witness :
    (ObjectHandler.handle_event hFail evEnter objPlain).2 = none ∧
    (ObjectHandler.handle_event hFail evEnter objPlain).1 =
      [Act.mark 1,
       Act.logError ("ObjectHandler") evEnter (PyError.other 7)] := by
  have h := handle_event_never_propagates hFail evEnter objPlain
  refine ⟨h.1, ?_⟩
  have h3 := h.2.2.1 effFail [Act.mark 1] (PyError.other 7) rfl rfl
  exact h3.trans (by rfl)

/-- C8 (amended): for every object with a location, GraphicHandler on enter
registers a capture region for that location before delegating to the base
dispatch; an enter for an object without a location does nothing (no
registration and no base dispatch); on leave it always removes its capture
region before delegating to the base dispatch. -/
theorem graphic_enter_leave_region_then_base (h : Handler) (ps : PluginState)
    (obj : NObj) :
    (∀ loc, obj.location = some loc →
      GraphicHandler.handle_event h ps evEnter obj =
        (add_capture_region ps h.id loc,
         (Act.addRegion h.id loc :: (ObjectHandler.handle_event h evEnter obj).1,
          (ObjectHandler.handle_event h evEnter obj).2))) ∧
    (obj.location = none →
      GraphicHandler.handle_event h ps evEnter obj = (ps, ([], none))) ∧
    GraphicHandler.handle_event h ps evLeave obj =
      (remove_capture_region ps h.id,
       (Act.removeRegion h.id :: (ObjectHandler.handle_event h evLeave obj).1,
        (ObjectHandler.handle_event h evLeave obj).2)) := by
  refine ⟨?_, ?_, ?_⟩
  · intro loc hloc
    unfold GraphicHandler.handle_event
    simp [hloc]
  · intro hloc
    unfold GraphicHandler.handle_event
    simp [hloc]
  · unfold GraphicHandler.handle_event
    have hne : ¬ (evLeave = evEnter) := by
      simp [evLeave, evEnter]
    simp [hne]

/-- The graphic handler used by the C8 theorems: its enter effect performs
one observable action. -/
def cHandlerC8 : Handler := ⟨0, "GraphicHandler", [(evEnter, effOkOne)]⟩

/-- An image object without a location. -/
def objNoLoc : NObj := ⟨some 5, some 0, none, some ROLE_GRAPHIC, false⟩

/-- An image object located at (100, 100, 300, 300). -/
def objAtBounds : NObj :=
  ⟨some 5, some 0, some ⟨100, 100, 300, 300⟩, some ROLE_GRAPHIC, false⟩

/-- The empty capture-region registry. -/
def ps0 : PluginState := ⟨[]⟩

/-- C8 counterexample: for an object without a location, the enter dispatch
registers nothing and does not delegate to the base dispatch (its mapped
enter effect never runs), refuting the claim as stated for every object. -/
theorem graphic_enter_without_location_counterexample :
    GraphicHandler.handle_event cHandlerC8 ps0 evEnter objNoLoc =
      (ps0, ([], none)) ∧
    (¬ ∃ loc : Rect, Act.addRegion cHandlerC8.id loc ∈
      (GraphicHandler.handle_event cHandlerC8 ps0 evEnter objNoLoc).2.1) ∧
    Act.mark 1 ∉ (GraphicHandler.handle_event cHandlerC8 ps0 evEnter objNoLoc).2.1 := by
  have hres : GraphicHandler.handle_event cHandlerC8 ps0 evEnter objNoLoc =
      (ps0, ([], none)) := rfl
  refine ⟨hres, ?_, ?_⟩
  · rintro ⟨loc, hm⟩
    rw [hres] at hm
    simp at hm
  · intro hm
    rw [hres] at hm
    simp at hm

/-- C8 witness: for an object located at (100, 100, 300, 300), enter
registers the region and then runs the mapped effect, and leave removes the
region before delegating. -/
theorem graphic_enter_leave_region_then_base_witness :
    GraphicHandler.handle_event cHandlerC8 ps0 evEnter objAtBounds =
      (⟨[(0, ⟨100, 100, 300, 300⟩)]⟩,
       ([Act.addRegion 0 ⟨100, 100, 300, 300⟩, Act.mark 1], none)) ∧
    GraphicHandler.handle_event cHandlerC8 ps0 evLeave objAtBounds =
      (ps0, ([Act.removeRegion 0], none)) := by
  have h1 := (graphic_enter_leave_region_then_base cHandlerC8 ps0 objAtBounds).1
    ⟨100, 100, 300, 300⟩ rfl
  have h2 := (graphic_enter_leave_region_then_base cHandlerC8 ps0 objAtBounds).2.2
  exact ⟨h1.trans (by rfl), h2.trans (by rfl)⟩

/-- C4: the claim says capture_callback samples the clamped
pointer-relative depth and transmits (depth - 0.5) * 2 * ELEVATION_SCALE;
but the sample-coordinate computation divides by self.region.width and
self.region.height, and no code in the repository ever assigns a `region`
attribute on GraphicHandler, so every capture invocation raises
AttributeError before sampling and sends nothing. -/
theorem capture_callback_attribute_error :
    capture_callback id id ⟨none⟩ (150, 150) ⟨100, 100, 300, 300⟩
      ⟨200, 200, fun _ _ => 204⟩ = ([], some PyError.attributeError) := rfl

/-- Supporting fact for C4: on the intended reading (the region attribute
holding the registered region), the end-to-end scenario of the spec holds:
a sampled depth of 0.8 (pixel value 204) at the pointer-relative coordinate
of region (100, 100, 300, 300) yields elevation 0.3. -/
theorem capture_callback_formula_when_region_attribute_set :
    capture_callback id id ⟨some ⟨100, 100, 300, 300⟩⟩ (150, 150)
      ⟨100, 100, 300, 300⟩ ⟨200, 200, fun _ _ => 204⟩ =
      ([Act.callSendElevation (3/10)], none) := by
  unfold capture_callback matNormalize pyInt ELEVATION_SCALE Rect.width Rect.height
  norm_num

end Touchpoint
